import Mathlib

/-
  A shallow embedding in Lean 4 of the fingerprinting entropy sources of this
  repository (the canvas source with its Safari-17 3x3 denoise path, the screen
  media-query prober, the WebRTC local-IP gatherer and the TLS-fingerprint
  fetch wrapper), together with theorems checking the specified properties of
  these sources against the embedded code.

  Modelling conventions:
  - Host interaction (DOM canvas calls, matchMedia, RTCPeerConnection events,
    fetch) is modelled by explicit environment records of oracles; a source
    becomes a pure function of its environment.
  - Fallible host calls are modelled with Except: the sources contain no
    try/catch (canvas.ts) or an explicit try/catch (tls_fingerprint.ts), and
    the embedding propagates or captures errors exactly where the source does.
  - JavaScript strings that the code inspects character by character (the IP
    strings of the WebRTC source) are modelled as List Char so that every
    definition computes by kernel reduction; opaque string tokens (data URLs,
    error messages) stay String.
  - Numbers are Nat; the pixel-ratio table (floats in the source, all exact
    multiples of 0.25) is scaled by 100 to hundredths.
-/

/-- Result record of the canvas source (canvas.ts, interface CanvasFingerprint). -/
structure CanvasFingerprint where
  winding : Bool
  geometry : String
  text : String
deriving DecidableEq

namespace ImageStatus

/-- Sentinel of canvas.ts, ImageStatus.Unsupported. -/
def Unsupported : String := "unsupported"

/-- Sentinel of canvas.ts, ImageStatus.Skipped. -/
def Skipped : String := "skipped"

/-- Sentinel of canvas.ts, ImageStatus.Unstable. -/
def Unstable : String := "unstable"

end ImageStatus

/-- The two fixed reference scenes drawn by canvas.ts
    (renderTextImage and renderGeometryImage). -/
inductive Scene where
  | textScene
  | geomScene
deriving DecidableEq

/-- Host environment of the canvas source: results of the DOM calls it makes.
    encode s i is the toDataURL result of the source canvas holding scene s at
    the i-th readback within one invocation (i distinguishes the double
    encoding of the text scene); scaledReadback s is the getImageData byte
    array (by flat index) of the 3W x 3H scaled canvas holding scene s;
    outputEncode s d is the toDataURL result of the output canvas after
    putImageData of the byte list d.  toDataURLThrows / imageDataThrows model
    the corresponding host calls throwing. -/
structure CanvasEnv where
  contextAvailable : Bool
  toDataURLSupported : Bool
  isWebKit : Bool
  isWebKit616OrNewer : Bool
  isSafariWebKit : Bool
  winding : Bool
  toDataURLThrows : Bool
  imageDataThrows : Bool
  encode : Scene → Nat → String
  scaledContextOk : Bool
  outputContextOk : Bool
  scaledReadback : Scene → Nat → Nat
  outputEncode : Scene → List Nat → String

/-- canvas.ts, isSupported: the 2d context exists and canvas.toDataURL exists. -/
def isSupported (env : CanvasEnv) : Bool :=
  env.contextAvailable && env.toDataURLSupported

/-- canvas.ts, doesSupportWinding: result of the isPointInPath feature test,
    an answer of the host. -/
def doesSupportWinding (env : CanvasEnv) : Bool :=
  env.winding

/-- canvas.ts, doesBrowserPerformAntifingerprinting:
    isWebKit() and isWebKit616OrNewer() and isSafariWebKit(). -/
def doesBrowserPerformAntifingerprinting (env : CanvasEnv) : Bool :=
  env.isWebKit && env.isWebKit616OrNewer && env.isSafariWebKit

/-- canvas.ts, DENOISE_SCALE. -/
def DENOISE_SCALE : Nat := 3

/-- Width set by the render function of each scene (canvas.ts lines 99, 125). -/
def sceneWidth : Scene → Nat
  | .textScene => 240
  | .geomScene => 122

/-- Height set by the render function of each scene (canvas.ts lines 100, 126). -/
def sceneHeight : Scene → Nat
  | .textScene => 60
  | .geomScene => 110

/-- The double loop of getDenoisedCanvasData (canvas.ts lines 251-267),
    flattened: the loop writes denoisedData sequentially at originalIdx =
    (y*W + x)*4 .. +3, so the produced array is the concatenation over y, then
    x, of the four RGBA bytes read at the center pixel of the 3x3 block. -/
def denoiseExtract (W H : Nat) (scaled : Nat → Nat) : List Nat :=
  (List.range H).flatMap fun y =>
    (List.range W).flatMap fun x =>
      let scaledX := x * DENOISE_SCALE + DENOISE_SCALE / 2
      let scaledY := y * DENOISE_SCALE + DENOISE_SCALE / 2
      let scaledIdx := (scaledY * (W * DENOISE_SCALE) + scaledX) * 4
      [scaled scaledIdx, scaled (scaledIdx + 1), scaled (scaledIdx + 2), scaled (scaledIdx + 3)]

/-- canvas.ts, getDenoisedCanvasData.  The source contains no try/catch, so a
    throwing host call (getImageData, toDataURL) propagates as Except.error.
    If the scaled 2d context or the output 2d context cannot be allocated the
    source falls back to the direct toDataURL of the source canvas. -/
def getDenoisedCanvasData (env : CanvasEnv) (scene : Scene) : Except String String :=
  if !env.scaledContextOk then
    if env.toDataURLThrows then Except.error ("toDataURL") else Except.ok (env.encode scene 0)
  else if env.imageDataThrows then Except.error ("getImageData")
  else
    let denoisedData := denoiseExtract (sceneWidth scene) (sceneHeight scene) (env.scaledReadback scene)
    if !env.outputContextOk then
      if env.toDataURLThrows then Except.error ("toDataURL") else Except.ok (env.encode scene 0)
    else if env.toDataURLThrows then Except.error ("toDataURL")
    else Except.ok (env.outputEncode scene denoisedData)

/-- canvas.ts, getNoiseResistantCanvasFingerprint: denoised geometry image,
    then denoised text image. -/
def getNoiseResistantCanvasFingerprint (env : CanvasEnv) : Except String CanvasFingerprint :=
  if !isSupported env then
    Except.ok { winding := false, geometry := ImageStatus.Unsupported, text := ImageStatus.Unsupported }
  else
    match getDenoisedCanvasData env Scene.geomScene with
    | Except.error e => Except.error e
    | Except.ok geometry =>
      match getDenoisedCanvasData env Scene.textScene with
      | Except.error e => Except.error e
      | Except.ok text =>
        Except.ok { winding := doesSupportWinding env, geometry := geometry, text := text }

/-- Instrumentation of the render and readback calls made by renderImages,
    recorded so that theorems can state which scenes were rendered. -/
inductive CanvasEvent where
  | render (s : Scene)
  | encodeEv (s : Scene) (idx : Nat)
deriving DecidableEq

/-- canvas.ts, renderImages: render the text scene, encode it twice; if the two
    encodings differ return Unstable for both images without rendering the
    geometry scene; otherwise render and encode the geometry scene.  The third
    component records the render and encode calls in order. -/
def renderImages (env : CanvasEnv) : Except String (String × String × List CanvasEvent) :=
  if env.toDataURLThrows then Except.error ("toDataURL")
  else
    let textImage1 := env.encode Scene.textScene 0
    let textImage2 := env.encode Scene.textScene 1
    if textImage1 ≠ textImage2 then
      Except.ok (ImageStatus.Unstable, ImageStatus.Unstable,
        [CanvasEvent.render Scene.textScene, CanvasEvent.encodeEv Scene.textScene 0,
         CanvasEvent.encodeEv Scene.textScene 1])
    else
      Except.ok (env.encode Scene.geomScene 2, textImage1,
        [CanvasEvent.render Scene.textScene, CanvasEvent.encodeEv Scene.textScene 0,
         CanvasEvent.encodeEv Scene.textScene 1,
         CanvasEvent.render Scene.geomScene, CanvasEvent.encodeEv Scene.geomScene 2])

/-- canvas.ts, getUnstableCanvasFingerprint. -/
def getUnstableCanvasFingerprint (env : CanvasEnv) (skipImages : Bool) : Except String CanvasFingerprint :=
  if !isSupported env then
    Except.ok { winding := false, geometry := ImageStatus.Unsupported, text := ImageStatus.Unsupported }
  else if skipImages then
    Except.ok { winding := doesSupportWinding env, geometry := ImageStatus.Skipped, text := ImageStatus.Skipped }
  else
    match renderImages env with
    | Except.error e => Except.error e
    | Except.ok (geometry, text, _) =>
      Except.ok { winding := doesSupportWinding env, geometry := geometry, text := text }

/-- canvas.ts, getCanvasFingerprint (the default export). -/
def getCanvasFingerprint (env : CanvasEnv) : Except String CanvasFingerprint :=
  if doesBrowserPerformAntifingerprinting env then getNoiseResistantCanvasFingerprint env
  else getUnstableCanvasFingerprint env false

/-- The two dimensions probed by screen_media_queries.ts. -/
inductive Dim where
  | width
  | height
deriving DecidableEq

/-- Typed form of the media-query strings passed to matchMedia by
    screen_media_queries.ts.  minResolution carries dppx scaled by 100
    (the source table holds exact multiples of 0.25). -/
inductive MediaQuery where
  | minDim (d : Dim) (px : Nat)
  | maxDim (d : Dim) (px : Nat)
  | minResolution (dppxHundredths : Nat)
  | minColor (bits : Nat)
  | feature (name value : String)
deriving DecidableEq

/-- Host environment of the media-query source: the matchMedia oracle and
    window.devicePixelRatio (scaled by 100). -/
structure ScreenEnv where
  matchMedia : MediaQuery → Bool
  devicePixelRatioHundredths : Nat

/-- The first while loop of detectDimensionRange (lower bound): while
    high - low > 10, test (min-dim: mid px); on match low := mid else
    high := mid.  The fuel argument only bounds the iteration count; the JS
    loop runs at most 10 iterations from the bracket [0, 8192] and the fuel
    used below (SEARCH_FUEL = 8192) always exceeds high - low, so the loop
    always reaches its exit condition high - low <= 10. -/
def minSearchLoop (mq : Nat → Bool) : Nat → Nat → Nat → Nat × Nat
  | 0, low, high => (low, high)
  | fuel + 1, low, high =>
    if high - low > 10 then
      let mid := (low + high) / 2
      if mq mid then minSearchLoop mq fuel mid high
      else minSearchLoop mq fuel low mid
    else (low, high)

/-- The second while loop of detectDimensionRange (upper bound): while
    high - low > 10, test (max-dim: mid px); on match high := mid else
    low := mid. -/
def maxSearchLoop (mq : Nat → Bool) : Nat → Nat → Nat → Nat × Nat
  | 0, low, high => (low, high)
  | fuel + 1, low, high =>
    if high - low > 10 then
      let mid := (low + high) / 2
      if mq mid then maxSearchLoop mq fuel low mid
      else maxSearchLoop mq fuel mid high
    else (low, high)

/-- Fuel for the two loops; far above the at most 10 iterations the JS loop
    performs from the initial bracket [0, 8192]. -/
def SEARCH_FUEL : Nat := 8192

/-- screen_media_queries.ts, detectDimensionRange: two independent binary
    searches over [0, 8192]; returns [minValue, maxValue] where minValue is
    the final low of the min-query search and maxValue the final high of the
    max-query search. -/
def detectDimensionRange (env : ScreenEnv) (dimension : Dim) : Nat × Nat :=
  let minValue := (minSearchLoop (fun m => env.matchMedia (MediaQuery.minDim dimension m)) SEARCH_FUEL 0 8192).1
  let maxValue := (maxSearchLoop (fun m => env.matchMedia (MediaQuery.maxDim dimension m)) SEARCH_FUEL 0 8192).2
  (minValue, maxValue)

/-- The ratio table of detectPixelRatio, in hundredths of dppx
    ([0.5, 0.75, 1, ..., 3.5, 4] in the source). -/
def pixelRatioTable : List Nat := [50, 75, 100, 125, 150, 175, 200, 225, 250, 275, 300, 350, 400]

/-- screen_media_queries.ts, detectPixelRatio: probe the table from the last
    entry down (modelled as find? over the reversed table), falling back to
    window.devicePixelRatio or 1 (JS || treats 0 as falsy). -/
def detectPixelRatio (env : ScreenEnv) : Nat :=
  match pixelRatioTable.reverse.find? (fun r => env.matchMedia (MediaQuery.minResolution r)) with
  | some r => r
  | none => if env.devicePixelRatioHundredths = 0 then 100 else env.devicePixelRatioHundredths

/-- The bit-depth table of detectColorBits. -/
def colorBitsTable : List Nat := [1, 4, 8, 12, 16, 24, 30, 48]

/-- screen_media_queries.ts, detectColorBits: probe the table from the last
    entry down; on no match return 0. -/
def detectColorBits (env : ScreenEnv) : Nat :=
  match colorBitsTable.reverse.find? (fun d => env.matchMedia (MediaQuery.minColor d)) with
  | some d => d
  | none => 0

/-- screen_media_queries.ts, detectOrientation. -/
def detectOrientation (env : ScreenEnv) : Option String :=
  if env.matchMedia (MediaQuery.feature ("orientation") ("portrait")) then some ("portrait")
  else if env.matchMedia (MediaQuery.feature ("orientation") ("landscape")) then some ("landscape")
  else none

/-- screen_media_queries.ts, detectDisplayMode. -/
def detectDisplayMode (env : ScreenEnv) : Option String :=
  if env.matchMedia (MediaQuery.feature ("display-mode") ("fullscreen")) then some ("fullscreen")
  else if env.matchMedia (MediaQuery.feature ("display-mode") ("standalone")) then some ("standalone")
  else if env.matchMedia (MediaQuery.feature ("display-mode") ("minimal-ui")) then some ("minimal-ui")
  else if env.matchMedia (MediaQuery.feature ("display-mode") ("browser")) then some ("browser")
  else none

/-- screen_media_queries.ts, detectPointer. -/
def detectPointer (env : ScreenEnv) : Option String :=
  if env.matchMedia (MediaQuery.feature ("pointer") ("none")) then some ("none")
  else if env.matchMedia (MediaQuery.feature ("pointer") ("coarse")) then some ("coarse")
  else if env.matchMedia (MediaQuery.feature ("pointer") ("fine")) then some ("fine")
  else none

/-- screen_media_queries.ts, detectHover. -/
def detectHover (env : ScreenEnv) : Option String :=
  if env.matchMedia (MediaQuery.feature ("hover") ("none")) then some ("none")
  else if env.matchMedia (MediaQuery.feature ("hover") ("hover")) then some ("hover")
  else none

/-- screen_media_queries.ts, detectAnyPointer (probes fine before coarse). -/
def detectAnyPointer (env : ScreenEnv) : Option String :=
  if env.matchMedia (MediaQuery.feature ("any-pointer") ("fine")) then some ("fine")
  else if env.matchMedia (MediaQuery.feature ("any-pointer") ("coarse")) then some ("coarse")
  else if env.matchMedia (MediaQuery.feature ("any-pointer") ("none")) then some ("none")
  else none

/-- screen_media_queries.ts, detectAnyHover. -/
def detectAnyHover (env : ScreenEnv) : Option String :=
  if env.matchMedia (MediaQuery.feature ("any-hover") ("hover")) then some ("hover")
  else if env.matchMedia (MediaQuery.feature ("any-hover") ("none")) then some ("none")
  else none

/-- screen_media_queries.ts, detectOverflowBlock. -/
def detectOverflowBlock (env : ScreenEnv) : Option String :=
  if env.matchMedia (MediaQuery.feature ("overflow-block") ("none")) then some ("none")
  else if env.matchMedia (MediaQuery.feature ("overflow-block") ("scroll")) then some ("scroll")
  else if env.matchMedia (MediaQuery.feature ("overflow-block") ("paged")) then some ("paged")
  else none

/-- screen_media_queries.ts, detectOverflowInline. -/
def detectOverflowInline (env : ScreenEnv) : Option String :=
  if env.matchMedia (MediaQuery.feature ("overflow-inline") ("none")) then some ("none")
  else if env.matchMedia (MediaQuery.feature ("overflow-inline") ("scroll")) then some ("scroll")
  else none

/-- screen_media_queries.ts, detectUpdate. -/
def detectUpdate (env : ScreenEnv) : Option String :=
  if env.matchMedia (MediaQuery.feature ("update") ("none")) then some ("none")
  else if env.matchMedia (MediaQuery.feature ("update") ("slow")) then some ("slow")
  else if env.matchMedia (MediaQuery.feature ("update") ("fast")) then some ("fast")
  else none

/-- screen_media_queries.ts, detectScripting. -/
def detectScripting (env : ScreenEnv) : Option String :=
  if env.matchMedia (MediaQuery.feature ("scripting") ("none")) then some ("none")
  else if env.matchMedia (MediaQuery.feature ("scripting") ("initial-only")) then some ("initial-only")
  else if env.matchMedia (MediaQuery.feature ("scripting") ("enabled")) then some ("enabled")
  else none

/-- Result record of the media-query source (interface ScreenMediaQueries).
    Enumerated feature fields are Option String (none models undefined). -/
structure ScreenMediaQueries where
  viewportWidth : Nat × Nat
  viewportHeight : Nat × Nat
  pixelRatio : Nat
  colorBits : Nat
  orientation : Option String
  displayMode : Option String
  pointer : Option String
  hover : Option String
  anyPointer : Option String
  anyHover : Option String
  overflowBlock : Option String
  overflowInline : Option String
  update : Option String
  scripting : Option String
deriving DecidableEq

/-- screen_media_queries.ts, getScreenMediaQueries (the default export). -/
def getScreenMediaQueries (env : ScreenEnv) : ScreenMediaQueries :=
  { viewportWidth := detectDimensionRange env Dim.width
    viewportHeight := detectDimensionRange env Dim.height
    pixelRatio := detectPixelRatio env
    colorBits := detectColorBits env
    orientation := detectOrientation env
    displayMode := detectDisplayMode env
    pointer := detectPointer env
    hover := detectHover env
    anyPointer := detectAnyPointer env
    anyHover := detectAnyHover env
    overflowBlock := detectOverflowBlock env
    overflowInline := detectOverflowInline env
    update := detectUpdate env
    scripting := detectScripting env }

/-- JavaScript strings inspected character by character are modelled as lists
    of characters (JS split, startsWith, endsWith, includes become computable
    list operations). -/
abbrev JStr := List Char

/-- JS String.prototype.split with a one-character separator, as used by
    isPrivateIPv4 (ip.split of the dot character). -/
def splitOnChar (c : Char) : JStr → List JStr
  | [] => [[]]
  | ch :: rest =>
    let r := splitOnChar c rest
    if ch = c then [] :: r
    else
      match r with
      | [] => [[ch]]
      | g :: gs => (ch :: g) :: gs

/-- Decimal digit test for a character. -/
def isDigitChar (c : Char) : Bool := ('0' ≤ c) && (c ≤ '9')

/-- JS Number() restricted to the strings that reach it in isPrivateIPv4:
    dot-free substrings of a candidate line.  A string of decimal digits maps
    to its value, the empty string to 0 (as in JS), anything else to none,
    which models NaN (NaN fails every comparison the source performs). -/
def jsNumber (s : JStr) : Option Nat :=
  if s = [] then some 0
  else if s.all isDigitChar then
    some (s.foldl (fun acc c => acc * 10 + (c.toNat - ('0').toNat)) 0)
  else none

/-- tls_fingerprint.ts, isPrivateIPv4: split on dots, require 4 parts, then
    test the leading parts against 10/8, 172.16/12, 192.168/16, 169.254/16.
    Note the source checks only the parts named in each range test. -/
def isPrivateIPv4 (ip : JStr) : Bool :=
  match (splitOnChar ('.') ip).map jsNumber with
  | [a, b, _, _] =>
    (a == some 10) ||
    (a == some 172 && (match b with | some n => decide (16 ≤ n) && decide (n ≤ 31) | none => false)) ||
    (a == some 192 && b == some 168) ||
    (a == some 169 && b == some 254)
  | _ => false

/-- ASCII lowercasing of one character (JS toLowerCase on the candidate
    strings, which are ASCII). -/
def toLowerChar (c : Char) : Char :=
  if ('A' ≤ c) && (c ≤ 'Z') then Char.ofNat (c.toNat + 32) else c

/-- The literal fe80: as a character list. -/
def fe80Colon : JStr := ['f', 'e', '8', '0', ':']

/-- The literal .local as a character list. -/
def dotLocal : JStr := ['.', 'l', 'o', 'c', 'a', 'l']

/-- tls_fingerprint.ts, isLinkLocalIPv6: lowercase, then startsWith fe80:. -/
def isLinkLocalIPv6 (ip : JStr) : Bool :=
  List.isPrefixOf fe80Colon (ip.map toLowerChar)

/-- Result record of the WebRTC source (interface WebRTCIPs). -/
structure WebRTCIPs where
  localIPv4 : List JStr
  localIPv6 : List JStr
  supported : Bool
deriving DecidableEq

/-- Mutable state of the getWebRTCIPs closure while events arrive: the seenIPs
    set (as a list) and the two result lists being pushed to. -/
structure RTCState where
  seen : List JStr
  ipv4 : List JStr
  ipv6 : List JStr
deriving DecidableEq

/-- Asynchronous happenings delivered to the getWebRTCIPs closure, in order:
    an onicecandidate event carrying a candidate string, the onicecandidate
    event with a null candidate (end of candidates), the gathering-state
    change to complete, the 1000 ms timer firing, or the createOffer /
    setLocalDescription promise chain rejecting (its .catch). -/
inductive RTCEvent where
  | candidate (s : JStr)
  | endOfCandidates
  | gatheringComplete
  | timeout
  | offerRejected
deriving DecidableEq

/-- Body of the onicecandidate handler for a non-null candidate
    (tls_fingerprint.ts lines 213-238).  extract models the regex match on the
    candidate line: the first substring matching the IPv4 or IPv6 alternative,
    none when the line has no match. -/
def candidateStep (extract : JStr → Option JStr) (st : RTCState) (s : JStr) : RTCState :=
  match extract s with
  | none => st
  | some ip =>
    if st.seen.contains ip then st
    else
      let st1 : RTCState := { st with seen := ip :: st.seen }
      if List.isSuffixOf dotLocal ip then st1
      else if ip.contains (':') then
        if isLinkLocalIPv6 ip then st1
        else { st1 with ipv6 := st1.ipv6 ++ [ip] }
      else
        if isPrivateIPv4 ip then { st1 with ipv4 := st1.ipv4 ++ [ip] }
        else st1

/-- Whether an event triggers finish (every event other than a candidate
    event resolves the promise: the null-candidate branch, the
    gathering-complete branch, the timer, and the offer .catch). -/
def isFinishEvent : RTCEvent → Bool
  | RTCEvent.candidate _ => false
  | _ => true

/-- Event loop of getWebRTCIPs after a successful setup: candidate events
    update the state; the first finish-triggering event resolves the promise
    with a snapshot of the result lists (the resolved guard makes later
    completion paths no-ops, so events after the first finish are ignored).
    The base case (no event left) cannot be reached from getWebRTCIPs, whose
    event list ends with the timer event. -/
def processEvents (extract : JStr → Option JStr) : RTCState → List RTCEvent → WebRTCIPs
  | st, [] => { localIPv4 := st.ipv4, localIPv6 := st.ipv6, supported := true }
  | st, RTCEvent.candidate s :: rest => processEvents extract (candidateStep extract st s) rest
  | st, _ :: _ => { localIPv4 := st.ipv4, localIPv6 := st.ipv6, supported := true }

/-- Host environment of the WebRTC source: which peer-connection constructors
    exist, whether the synchronous setup (constructor, handlers,
    createDataChannel) throws, the regex-match oracle, and the delivered
    events.  The 1000 ms timer set before the try block always fires if
    nothing resolved earlier, so the processed event list ends with timeout. -/
structure RTCEnv where
  hasRTCPeerConnection : Bool
  hasWebkitRTCPeerConnection : Bool
  hasMozRTCPeerConnection : Bool
  setupThrows : Bool
  extract : JStr → Option JStr
  events : List RTCEvent

/-- tls_fingerprint.ts, getWebRTCIPs (the default export of the WebRTC part):
    resolve the constructor from the vendor-prefixed candidates; without one,
    resolve immediately with supported false; a throw during setup resolves
    with supported true and empty lists (no candidate event precedes the
    synchronous throw); otherwise the event loop runs until the first
    finish-triggering event. -/
def getWebRTCIPs (env : RTCEnv) : WebRTCIPs :=
  let hasPC := env.hasRTCPeerConnection || env.hasWebkitRTCPeerConnection || env.hasMozRTCPeerConnection
  if !hasPC then { localIPv4 := [], localIPv6 := [], supported := false }
  else if env.setupThrows then { localIPv4 := [], localIPv6 := [], supported := true }
  else processEvents env.extract { seen := [], ipv4 := [], ipv6 := [] } (env.events ++ [RTCEvent.timeout])

/-- Shape of a capture of the IPv4 alternative of the extraction regex
    ([0-9]{1,3}(\.[0-9]{1,3}){3}): four dot-separated groups of one to three
    decimal digits; such a string contains no colon. -/
def ipv4ShapeB (ip : JStr) : Bool :=
  decide ((splitOnChar ('.') ip).length = 4) &&
  (splitOnChar ('.') ip).all (fun p => decide (1 ≤ p.length) && decide (p.length ≤ 3) && p.all isDigitChar) &&
  !(ip.contains (':'))

/-- Hexadecimal digit test (the regex is case-insensitive). -/
def isHexChar (c : Char) : Bool :=
  isDigitChar c || (('a' ≤ c) && (c ≤ 'f')) || (('A' ≤ c) && (c ≤ 'F'))

/-- Shape of a capture of the IPv6 alternative of the extraction regex
    ([a-f0-9]{1,4}(:[a-f0-9]{1,4}){7} with the i flag): eight colon-separated
    groups of one to four hex digits; such a string contains a colon. -/
def ipv6ShapeB (ip : JStr) : Bool :=
  decide ((splitOnChar (':') ip).length = 8) &&
  (splitOnChar (':') ip).all (fun p => decide (1 ≤ p.length) && decide (p.length ≤ 4) && p.all isHexChar) &&
  ip.contains (':')

/-- Soundness of an extraction oracle with respect to the source regex: any
    extracted string is a capture of one of the two alternatives. -/
def regexSound (extract : JStr → Option JStr) : Prop :=
  ∀ s ip, extract s = some ip → ipv4ShapeB ip = true ∨ ipv6ShapeB ip = true

/-- The claim-side notion of a dotted-quad address lying in one of the private
    ranges 10/8, 172.16/12, 192.168/16, 169.254/16: four dot-separated decimal
    groups, every octet at most 255, and the leading octets in the range. -/
def validDottedQuadInPrivateRanges (ip : JStr) : Bool :=
  match (splitOnChar ('.') ip).map jsNumber with
  | [some a, some b, some c, some d] =>
    decide (a ≤ 255) && decide (b ≤ 255) && decide (c ≤ 255) && decide (d ≤ 255) &&
    ((a == 10) ||
     ((a == 172) && decide (16 ≤ b) && decide (b ≤ 31)) ||
     ((a == 192) && (b == 168)) ||
     ((a == 169) && (b == 254)))
  | _ => false

/-- Result record of the TLS source (interface TLSFingerprint). -/
structure TLSFingerprint where
  ja3 : Option String
  ja3Full : Option String
  ja4 : Option String
  success : Bool
  error : Option String
deriving DecidableEq

/-- Options record (interface TLSFingerprintOptions): both fields optional;
    none models an absent field. -/
structure TLSFingerprintOptions where
  endpoint : Option String := none
  timeout : Option Nat := none
deriving DecidableEq

/-- tls_fingerprint.ts, defaultOptions: endpoint undefined, timeout 3000. -/
def defaultOptions : TLSFingerprintOptions :=
  { endpoint := none, timeout := some 3000 }

/-- JS object spread of two options records: a field present in the update
    overrides the base. -/
def spreadOptions (base upd : TLSFingerprintOptions) : TLSFingerprintOptions :=
  { endpoint := match upd.endpoint with | some e => some e | none => base.endpoint
    timeout := match upd.timeout with | some t => some t | none => base.timeout }

/-- tls_fingerprint.ts, configureTLSFingerprint: replaces the process-wide
    configuredOptions with the spread of defaultOptions and the argument; the
    previous configuration (the explicit state argument) is discarded. -/
def configureTLSFingerprint (options old : TLSFingerprintOptions) : TLSFingerprintOptions :=
  let _ := old
  spreadOptions defaultOptions options

/-- JS truthiness of an optional string field: undefined and the empty string
    are falsy. -/
def truthyStr : Option String → Bool
  | none => false
  | some s => !(s == "")

/-- JS a or-else b for optional string values (the permissive field union). -/
def jsOrStr (a b : Option String) : Option String :=
  if truthyStr a then a else b

/-- Parsed JSON body of the endpoint response: the subset of field names the
    source reads, each an optional string. -/
structure TLSData where
  ja3_hash : Option String := none
  ja3Hash : Option String := none
  ja3 : Option String := none
  ja3_full : Option String := none
  ja3Full : Option String := none
  ja3_string : Option String := none
  ja4 : Option String := none
deriving DecidableEq

/-- Outcome of the fetch against the endpoint: the fetch promise rejecting
    (network failure or the abort timer; the message is none when the thrown
    value is not an Error), or a response with its HTTP status whose json()
    either rejects (again with an optional Error message) or parses. -/
inductive TLSOutcome where
  | fetchThrow (msg : Option String)
  | response (status : Nat) (body : Except (Option String) TLSData)

/-- Host environment of the TLS source: the single fetch outcome. -/
structure TLSEnv where
  outcome : TLSOutcome

/-- tls_fingerprint.ts, getTLSFingerprint: no (truthy) endpoint gives the
    structured disabled record; a throw anywhere in the try block is caught
    and mapped to success false with the error message (Unknown error when the
    thrown value is not an Error); a non-ok response gives the HTTP status
    error; otherwise the permissive field union is applied.  response.ok is
    status in 200..299 (the fetch specification). -/
def getTLSFingerprint (cfg : TLSFingerprintOptions) (env : TLSEnv) : TLSFingerprint :=
  if !(truthyStr cfg.endpoint) then
    { ja3 := none, ja3Full := none, ja4 := none, success := false,
      error := some ("No TLS fingerprint endpoint configured") }
  else
    match env.outcome with
    | TLSOutcome.fetchThrow msg =>
      { ja3 := none, ja3Full := none, ja4 := none, success := false,
        error := some (msg.getD ("Unknown error")) }
    | TLSOutcome.response status body =>
      if !(decide (200 ≤ status) && decide (status ≤ 299)) then
        { ja3 := none, ja3Full := none, ja4 := none, success := false,
          error := some (("HTTP ") ++ toString status) }
      else
        match body with
        | Except.error msg =>
          { ja3 := none, ja3Full := none, ja4 := none, success := false,
            error := some (msg.getD ("Unknown error")) }
        | Except.ok data =>
          { ja3 := jsOrStr data.ja3_hash (jsOrStr data.ja3Hash (jsOrStr data.ja3 none))
            ja3Full := jsOrStr data.ja3_full (jsOrStr data.ja3Full (jsOrStr data.ja3_string none))
            ja4 := jsOrStr data.ja4 none
            success := true
            error := none }

/-- Invariant of the getWebRTCIPs closure state: the result lists hold no
    duplicate (within or across), every listed IP was recorded in seenIPs,
    IPv4 entries passed the shape and private-range filters, IPv6 entries are
    not link-local. -/
def RTCInv (st : RTCState) : Prop :=
  (st.ipv4 ++ st.ipv6).Nodup ∧
  (∀ ip ∈ st.ipv4 ++ st.ipv6, ip ∈ st.seen) ∧
  (∀ ip ∈ st.ipv4, ipv4ShapeB ip = true ∧ isPrivateIPv4 ip = true) ∧
  (∀ ip ∈ st.ipv6, isLinkLocalIPv6 ip = false)

/-- A Safari-17 environment (denoise path) with an ICE-like candidate line
    whose address token 10.777.0.1 matches the extraction regex but has a
    third group above 255. -/
def c7Candidate : JStr :=
  ['c','a','n','d','i','d','a','t','e',':','1',' ','1',' ','u','d','p',' ','2',' ',
   '1','0','.','7','7','7','.','0','.','1',' ','5','4','4','0','0',' ','t','y','p',' ','h','o','s','t']

/-- The address token of c7Candidate. -/
def c7IP : JStr := ['1','0','.','7','7','7','.','0','.','1']

/-- Extraction oracle agreeing with the source regex on the inputs exercised:
    on c7Candidate the leftmost match of the IPv4 alternative is 10.777.0.1
    (three groups of one to three digits after the first). -/
def c7Extract : JStr → Option JStr :=
  fun s => if s = c7Candidate then some c7IP else none

/-- Environment delivering the c7Candidate event before end of candidates. -/
def c7Env : RTCEnv :=
  { hasRTCPeerConnection := true
    hasWebkitRTCPeerConnection := false
    hasMozRTCPeerConnection := false
    setupThrows := false
    extract := c7Extract
    events := [RTCEvent.candidate c7Candidate, RTCEvent.endOfCandidates] }

/-- A well-formed private address token, for witnesses. -/
def goodIP : JStr := ['1','9','2','.','1','6','8','.','1','.','7']

/-- A candidate line carrying goodIP. -/
def goodCandidate : JStr :=
  ['c','a','n','d','i','d','a','t','e',':','2',' ','1',' ','u','d','p',' ','2',' ',
   '1','9','2','.','1','6','8','.','1','.','7',' ','9',' ','t','y','p',' ','h','o','s','t']

/-- Extraction oracle for the witness environment. -/
def goodExtract : JStr → Option JStr :=
  fun s => if s = goodCandidate then some goodIP else none

/-- Witness environment: one private IPv4 candidate, then gathering completes. -/
def rtcGoodEnv : RTCEnv :=
  { hasRTCPeerConnection := true
    hasWebkitRTCPeerConnection := false
    hasMozRTCPeerConnection := false
    setupThrows := false
    extract := goodExtract
    events := [RTCEvent.candidate goodCandidate, RTCEvent.gatheringComplete] }

/-- Environment without any peer-connection constructor. -/
def rtcNoPCEnv : RTCEnv :=
  { hasRTCPeerConnection := false
    hasWebkitRTCPeerConnection := false
    hasMozRTCPeerConnection := false
    setupThrows := false
    extract := fun _ => none
    events := [] }

/-- Environment whose synchronous setup throws. -/
def rtcThrowEnv : RTCEnv :=
  { hasRTCPeerConnection := false
    hasWebkitRTCPeerConnection := true
    hasMozRTCPeerConnection := false
    setupThrows := true
    extract := fun _ => none
    events := [RTCEvent.candidate goodCandidate] }

/-- Safari-17 environment (denoise path taken) where getImageData throws. -/
def canvasThrowEnv : CanvasEnv :=
  { contextAvailable := true
    toDataURLSupported := true
    isWebKit := true
    isWebKit616OrNewer := true
    isSafariWebKit := true
    winding := true
    toDataURLThrows := false
    imageDataThrows := true
    encode := fun _ _ => "data:src"
    scaledContextOk := true
    outputContextOk := true
    scaledReadback := fun _ _ => 0
    outputEncode := fun _ _ => "data:out" }

/-- Safari-17 environment (denoise path taken) with no throwing host call. -/
def safariDenoiseEnv : CanvasEnv :=
  { contextAvailable := true
    toDataURLSupported := true
    isWebKit := true
    isWebKit616OrNewer := true
    isSafariWebKit := true
    winding := true
    toDataURLThrows := false
    imageDataThrows := false
    encode := fun _ _ => "data:src"
    scaledContextOk := true
    outputContextOk := true
    scaledReadback := fun _ _ => 7
    outputEncode := fun _ _ => "data:out" }

/-- Non-Safari environment whose two text readbacks differ (noisy host). -/
def unstableTextEnv : CanvasEnv :=
  { contextAvailable := true
    toDataURLSupported := true
    isWebKit := false
    isWebKit616OrNewer := false
    isSafariWebKit := false
    winding := true
    toDataURLThrows := false
    imageDataThrows := false
    encode := fun _ i => if i = 0 then "data:p" else "data:q"
    scaledContextOk := true
    outputContextOk := true
    scaledReadback := fun _ _ => 0
    outputEncode := fun _ _ => "data:out" }

/-- Non-Safari environment whose readbacks are stable. -/
def stableTextEnv : CanvasEnv :=
  { contextAvailable := true
    toDataURLSupported := true
    isWebKit := false
    isWebKit616OrNewer := false
    isSafariWebKit := false
    winding := true
    toDataURLThrows := false
    imageDataThrows := false
    encode := fun s _ => match s with | Scene.textScene => "data:t" | Scene.geomScene => "data:g"
    scaledContextOk := true
    outputContextOk := true
    scaledReadback := fun _ _ => 0
    outputEncode := fun _ _ => "data:out" }

/-- Screen environment whose matchMedia oracle reports a true dimension value
    of 1280 on both axes (monotone min and max queries). -/
def screen1280Env : ScreenEnv :=
  { matchMedia := fun q =>
      match q with
      | MediaQuery.minDim _ m => decide (m ≤ 1280)
      | MediaQuery.maxDim _ m => decide (1280 ≤ m)
      | _ => false
    devicePixelRatioHundredths := 200 }

/-- C10: configureTLSFingerprint replaces the configuration with the defaults
    (endpoint undefined, timeout 3000) overwritten only by the fields present
    in the argument; omitted fields revert to their defaults regardless of any
    earlier configuration, so configuring an endpoint after configuring a
    5000 ms timeout leaves the effective timeout at 3000. -/
theorem configureTLSFingerprint_resets_to_defaults
    (o st st' : TLSFingerprintOptions) (e : String) :
    ((configureTLSFingerprint o st).endpoint
        = match o.endpoint with | some v => some v | none => none) ∧
    ((configureTLSFingerprint o st).timeout
        = match o.timeout with | some t => some t | none => some 3000) ∧
    configureTLSFingerprint o st = configureTLSFingerprint o st' ∧
    (configureTLSFingerprint { endpoint := some e, timeout := none }
        (configureTLSFingerprint { endpoint := none, timeout := some 5000 } st)).timeout
      = some 3000 := by
  obtain ⟨oe, ot⟩ := o
  refine ⟨?_, ?_, rfl, rfl⟩
  · cases oe <;> rfl
  · cases ot <;> rfl

/-- C9: in the denoise path, if allocation of the scaled scratch 2d context
    fails, getDenoisedCanvasData returns the direct toDataURL of the source
    canvas; the same fallback applies when the output context allocation
    fails. -/
theorem getDenoisedCanvasData_context_fallback (env : CanvasEnv) (scene : Scene)
    (hnothrow : env.toDataURLThrows = false) :
    (env.scaledContextOk = false →
       getDenoisedCanvasData env scene = Except.ok (env.encode scene 0)) ∧
    (env.scaledContextOk = true → env.imageDataThrows = false → env.outputContextOk = false →
       getDenoisedCanvasData env scene = Except.ok (env.encode scene 0)) := by
  unfold getDenoisedCanvasData
  constructor
  · intro h; simp [h, hnothrow]
  · intro h hi ho; simp [h, hi, ho, hnothrow]

/-- Witness for getDenoisedCanvasData_context_fallback: both fallbacks at a
    concrete environment. -/
theorem getDenoisedCanvasData_context_fallback_witness :
    ({ safariDenoiseEnv with scaledContextOk := false } : CanvasEnv).toDataURLThrows = false ∧
    getDenoisedCanvasData { safariDenoiseEnv with scaledContextOk := false } Scene.geomScene
      = Except.ok "data:src" ∧
    getDenoisedCanvasData { safariDenoiseEnv with outputContextOk := false } Scene.textScene
      = Except.ok "data:src" := by
  refine ⟨rfl, ?_, ?_⟩
  · exact (getDenoisedCanvasData_context_fallback
      { safariDenoiseEnv with scaledContextOk := false } Scene.geomScene rfl).1 rfl
  · exact (getDenoisedCanvasData_context_fallback
      { safariDenoiseEnv with outputContextOk := false } Scene.textScene rfl).2 rfl rfl rfl

/-- C3: with a fixed host environment (all host API answers equal in the two
    runs), two invocations of getCanvasFingerprint return equal records and
    two invocations of getScreenMediaQueries return equal records; the
    sources read nothing but their environment, so this holds on every
    environment, including Safari 17+ ones where the denoise path is taken. -/
theorem sources_deterministic_within_page_load
    (c1 c2 : CanvasEnv) (s1 s2 : ScreenEnv) (hc : c1 = c2) (hs : s1 = s2) :
    getCanvasFingerprint c1 = getCanvasFingerprint c2 ∧
    getScreenMediaQueries s1 = getScreenMediaQueries s2 := by
  subst hc; subst hs; exact ⟨rfl, rfl⟩

/-- Witness for sources_deterministic_within_page_load at a Safari-17
    environment on which the denoise path is active. -/
theorem sources_deterministic_within_page_load_witness :
    doesBrowserPerformAntifingerprinting safariDenoiseEnv = true ∧
    getCanvasFingerprint safariDenoiseEnv = getCanvasFingerprint safariDenoiseEnv ∧
    getScreenMediaQueries screen1280Env = getScreenMediaQueries screen1280Env :=
  ⟨rfl,
   (sources_deterministic_within_page_load safariDenoiseEnv safariDenoiseEnv
      screen1280Env screen1280Env rfl rfl).1,
   (sources_deterministic_within_page_load safariDenoiseEnv safariDenoiseEnv
      screen1280Env screen1280Env rfl rfl).2⟩

/-- C6: getWebRTCIPs always resolves with a WebRTCIPs record (it is a total
    function of its environment): with no peer-connection constructor it
    resolves with supported false and empty lists; a throw during setup after
    the constructor is found resolves with supported true and empty lists;
    and resolution is idempotent: the first finish-triggering event fixes the
    result, events delivered afterwards are ignored. -/
theorem getWebRTCIPs_never_rejects (env : RTCEnv) :
    ((env.hasRTCPeerConnection || env.hasWebkitRTCPeerConnection || env.hasMozRTCPeerConnection) = false →
       getWebRTCIPs env = { localIPv4 := [], localIPv6 := [], supported := false }) ∧
    ((env.hasRTCPeerConnection || env.hasWebkitRTCPeerConnection || env.hasMozRTCPeerConnection) = true →
       env.setupThrows = true →
       getWebRTCIPs env = { localIPv4 := [], localIPv6 := [], supported := true }) ∧
    (∀ (extract : JStr → Option JStr) (st : RTCState) (e : RTCEvent) (rest rest' : List RTCEvent),
       isFinishEvent e = true →
       processEvents extract st (e :: rest) = processEvents extract st (e :: rest')) := by
  refine ⟨?_, ?_, ?_⟩
  · intro h; unfold getWebRTCIPs; simp [h]
  · intro h ht; unfold getWebRTCIPs; simp [h, ht]
  · intro extract st e rest rest' he
    cases e with
    | candidate s => simp [isFinishEvent] at he
    | endOfCandidates => rfl
    | gatheringComplete => rfl
    | timeout => rfl
    | offerRejected => rfl

/-- Witness for getWebRTCIPs_never_rejects: the three parts at concrete
    environments and event lists. -/
theorem getWebRTCIPs_never_rejects_witness :
    getWebRTCIPs rtcNoPCEnv = { localIPv4 := [], localIPv6 := [], supported := false } ∧
    getWebRTCIPs rtcThrowEnv = { localIPv4 := [], localIPv6 := [], supported := true } ∧
    processEvents goodExtract { seen := [], ipv4 := [], ipv6 := [] }
        (RTCEvent.timeout :: [RTCEvent.candidate goodCandidate])
      = processEvents goodExtract { seen := [], ipv4 := [], ipv6 := [] } (RTCEvent.timeout :: []) :=
  ⟨(getWebRTCIPs_never_rejects rtcNoPCEnv).1 rfl,
   (getWebRTCIPs_never_rejects rtcThrowEnv).2.1 rfl rfl,
   (getWebRTCIPs_never_rejects rtcNoPCEnv).2.2 goodExtract
     { seen := [], ipv4 := [], ipv6 := [] } RTCEvent.timeout
     [RTCEvent.candidate goodCandidate] [] rfl⟩

/-- C8: getTLSFingerprint always resolves with a TLSFingerprint record (it is
    a total function): no configured endpoint gives the structured disabled
    record; a non-2xx response gives the HTTP status error; fetch or JSON
    failure gives the captured error message; success applies the permissive
    field-name union with success true. -/
theorem getTLSFingerprint_total_mapping (cfg : TLSFingerprintOptions) (env : TLSEnv) :
    (truthyStr cfg.endpoint = false →
      getTLSFingerprint cfg env =
        { ja3 := none, ja3Full := none, ja4 := none, success := false,
          error := some ("No TLS fingerprint endpoint configured") }) ∧
    (∀ status body, truthyStr cfg.endpoint = true →
      env.outcome = TLSOutcome.response status body → ¬(200 ≤ status ∧ status ≤ 299) →
      getTLSFingerprint cfg env =
        { ja3 := none, ja3Full := none, ja4 := none, success := false,
          error := some (("HTTP ") ++ toString status) }) ∧
    (∀ msg, truthyStr cfg.endpoint = true → env.outcome = TLSOutcome.fetchThrow msg →
      getTLSFingerprint cfg env =
        { ja3 := none, ja3Full := none, ja4 := none, success := false,
          error := some (msg.getD ("Unknown error")) }) ∧
    (∀ status msg, truthyStr cfg.endpoint = true →
      env.outcome = TLSOutcome.response status (Except.error msg) → 200 ≤ status ∧ status ≤ 299 →
      getTLSFingerprint cfg env =
        { ja3 := none, ja3Full := none, ja4 := none, success := false,
          error := some (msg.getD ("Unknown error")) }) ∧
    (∀ status data, truthyStr cfg.endpoint = true →
      env.outcome = TLSOutcome.response status (Except.ok data) → 200 ≤ status ∧ status ≤ 299 →
      getTLSFingerprint cfg env =
        { ja3 := jsOrStr data.ja3_hash (jsOrStr data.ja3Hash (jsOrStr data.ja3 none))
          ja3Full := jsOrStr data.ja3_full (jsOrStr data.ja3Full (jsOrStr data.ja3_string none))
          ja4 := jsOrStr data.ja4 none
          success := true
          error := none }) := by
  refine ⟨?_, ?_, ?_, ?_, ?_⟩
  · intro h; unfold getTLSFingerprint; simp [h]
  · intro status body h hout hst
    unfold getTLSFingerprint
    rcases Nat.lt_or_ge status 200 with hlt | hge
    · simp [h, hout]; omega
    · have : ¬(status ≤ 299) := by omega
      simp [h, hout]; omega
  · intro msg h hout; unfold getTLSFingerprint; simp [h, hout]
  · intro status msg h hout hst
    unfold getTLSFingerprint
    simp [h, hout, hst.1, hst.2]
  · intro status data h hout hst
    unfold getTLSFingerprint
    simp [h, hout, hst.1, hst.2]

/-- Witness for getTLSFingerprint_total_mapping: every case at concrete
    configurations and outcomes. -/
theorem getTLSFingerprint_total_mapping_witness :
    getTLSFingerprint { endpoint := none, timeout := some 3000 }
        { outcome := TLSOutcome.fetchThrow none }
      = { ja3 := none, ja3Full := none, ja4 := none, success := false,
          error := some ("No TLS fingerprint endpoint configured") } ∧
    getTLSFingerprint { endpoint := some ("https://e"), timeout := some 3000 }
        { outcome := TLSOutcome.response 404 (Except.ok {}) }
      = { ja3 := none, ja3Full := none, ja4 := none, success := false,
          error := some (("HTTP ") ++ toString 404) } ∧
    getTLSFingerprint { endpoint := some ("https://e"), timeout := some 3000 }
        { outcome := TLSOutcome.fetchThrow (some ("The operation was aborted")) }
      = { ja3 := none, ja3Full := none, ja4 := none, success := false,
          error := some ((some ("The operation was aborted")).getD ("Unknown error")) } ∧
    getTLSFingerprint { endpoint := some ("https://e"), timeout := some 3000 }
        { outcome := TLSOutcome.response 200 (Except.error none) }
      = { ja3 := none, ja3Full := none, ja4 := none, success := false,
          error := some ((none : Option String).getD ("Unknown error")) } ∧
    getTLSFingerprint { endpoint := some ("https://e"), timeout := some 3000 }
        { outcome := TLSOutcome.response 200 (Except.ok { ja3_hash := some ("h"), ja4 := some ("j4") }) }
      = { ja3 := jsOrStr (some ("h")) (jsOrStr none (jsOrStr none none))
          ja3Full := jsOrStr none (jsOrStr none (jsOrStr none none))
          ja4 := jsOrStr (some ("j4")) none
          success := true
          error := none } := by
  refine ⟨?_, ?_, ?_, ?_, ?_⟩
  · exact (getTLSFingerprint_total_mapping { endpoint := none, timeout := some 3000 }
      { outcome := TLSOutcome.fetchThrow none }).1 rfl
  · exact (getTLSFingerprint_total_mapping { endpoint := some ("https://e"), timeout := some 3000 }
      { outcome := TLSOutcome.response 404 (Except.ok {}) }).2.1 404 (Except.ok {}) rfl rfl (by omega)
  · exact (getTLSFingerprint_total_mapping { endpoint := some ("https://e"), timeout := some 3000 }
      { outcome := TLSOutcome.fetchThrow (some ("The operation was aborted")) }).2.2.1
      (some ("The operation was aborted")) rfl rfl
  · exact (getTLSFingerprint_total_mapping { endpoint := some ("https://e"), timeout := some 3000 }
      { outcome := TLSOutcome.response 200 (Except.error none) }).2.2.2.1 200 none rfl rfl (by omega)
  · exact (getTLSFingerprint_total_mapping { endpoint := some ("https://e"), timeout := some 3000 }
      { outcome := TLSOutcome.response 200 (Except.ok { ja3_hash := some ("h"), ja4 := some ("j4") }) }).2.2.2.2
      200 { ja3_hash := some ("h"), ja4 := some ("j4") } rfl rfl (by omega)

/-- Helper: on an environment whose readback calls do not throw, the denoise
    procedure returns a value. -/
theorem getDenoisedCanvasData_ok_of_nothrow (env : CanvasEnv) (scene : Scene)
    (ht : env.toDataURLThrows = false) (hi : env.imageDataThrows = false) :
    ∃ s, getDenoisedCanvasData env scene = Except.ok s := by
  unfold getDenoisedCanvasData
  simp only [ht, hi]
  by_cases h1 : env.scaledContextOk <;> by_cases h2 : env.outputContextOk <;>
    simp [h1, h2]

/-- C1 counterexample environment evaluation: on a Safari-17 (denoise path)
    environment whose getImageData throws, getCanvasFingerprint propagates
    the exception instead of returning a record with Unsupported fields;
    the claim that every host environment yields a structured
    CanvasFingerprint is therefore false. -/
theorem getCanvasFingerprint_readback_throw_cex :
    getCanvasFingerprint canvasThrowEnv = Except.error ("getImageData") ∧
    (getCanvasFingerprint canvasThrowEnv).isOk = false := by
  exact ⟨rfl, rfl⟩

/-- C1 amended: when the host readback calls do not throw,
    getCanvasFingerprint terminates in a structured CanvasFingerprint value
    (with both image fields Unsupported when canvas or toDataURL is absent);
    but if getImageData throws during the Safari-17+ denoise path, the
    exception propagates out of getCanvasFingerprint. -/
theorem getCanvasFingerprint_structured_or_propagates (env : CanvasEnv) :
    (env.toDataURLThrows = false → env.imageDataThrows = false →
       ∃ cf : CanvasFingerprint, getCanvasFingerprint env = Except.ok cf) ∧
    (isSupported env = false →
       getCanvasFingerprint env = Except.ok
         { winding := false, geometry := ImageStatus.Unsupported, text := ImageStatus.Unsupported }) ∧
    (doesBrowserPerformAntifingerprinting env = true → isSupported env = true →
       env.scaledContextOk = true → env.imageDataThrows = true →
       getCanvasFingerprint env = Except.error ("getImageData")) := by
  refine ⟨?_, ?_, ?_⟩
  · intro ht hi
    unfold getCanvasFingerprint
    by_cases hfp : doesBrowserPerformAntifingerprinting env
    · simp only [hfp, if_true]
      unfold getNoiseResistantCanvasFingerprint
      by_cases hsup : isSupported env
      · obtain ⟨g, hg⟩ := getDenoisedCanvasData_ok_of_nothrow env Scene.geomScene ht hi
        obtain ⟨t, htx⟩ := getDenoisedCanvasData_ok_of_nothrow env Scene.textScene ht hi
        simp [hsup, hg, htx]
      · simp [hsup]
    · simp only [hfp, if_false]
      unfold getUnstableCanvasFingerprint renderImages
      by_cases hsup : isSupported env
      · by_cases heq : env.encode Scene.textScene 0 = env.encode Scene.textScene 1 <;>
          simp [hsup, ht, heq]
      · simp [hsup]
  · intro hsup
    unfold getCanvasFingerprint getNoiseResistantCanvasFingerprint getUnstableCanvasFingerprint
    by_cases hfp : doesBrowserPerformAntifingerprinting env <;> simp [hfp, hsup]
  · intro hfp hsup hsc hi
    unfold getCanvasFingerprint getNoiseResistantCanvasFingerprint getDenoisedCanvasData
    simp [hfp, hsup, hsc, hi]

/-- Witness for getCanvasFingerprint_structured_or_propagates: the no-throw
    part at a concrete Safari-17 environment, the unsupported part at an
    environment without a 2d context, and the propagation part at the
    concrete throwing environment. -/
theorem getCanvasFingerprint_structured_or_propagates_witness :
    (∃ cf : CanvasFingerprint, getCanvasFingerprint safariDenoiseEnv = Except.ok cf) ∧
    getCanvasFingerprint { safariDenoiseEnv with contextAvailable := false } = Except.ok
      { winding := false, geometry := ImageStatus.Unsupported, text := ImageStatus.Unsupported } ∧
    getCanvasFingerprint canvasThrowEnv = Except.error ("getImageData") :=
  ⟨(getCanvasFingerprint_structured_or_propagates safariDenoiseEnv).1 rfl rfl,
   (getCanvasFingerprint_structured_or_propagates
      { safariDenoiseEnv with contextAvailable := false }).2.1 rfl,
   (getCanvasFingerprint_structured_or_propagates canvasThrowEnv).2.2 rfl rfl rfl rfl⟩

/-- C4: on the non-Safari-17 path with a supported canvas and images not
    skipped, the text scene is rendered once and encoded twice; if the two
    encodings differ the returned record carries Unstable in both image
    fields and the geometry scene is never rendered; if they agree, geometry
    is the geometry-scene encoding and text the first text encoding. -/
theorem renderImages_unstable_policy (env : CanvasEnv)
    (hpath : doesBrowserPerformAntifingerprinting env = false)
    (hsup : isSupported env = true)
    (ht : env.toDataURLThrows = false) :
    ∃ g t tr, renderImages env = Except.ok (g, t, tr) ∧
      getCanvasFingerprint env
        = Except.ok { winding := doesSupportWinding env, geometry := g, text := t } ∧
      CanvasEvent.render Scene.textScene ∈ tr ∧
      CanvasEvent.encodeEv Scene.textScene 0 ∈ tr ∧
      CanvasEvent.encodeEv Scene.textScene 1 ∈ tr ∧
      (env.encode Scene.textScene 0 ≠ env.encode Scene.textScene 1 →
        g = ImageStatus.Unstable ∧ t = ImageStatus.Unstable ∧
        CanvasEvent.render Scene.geomScene ∉ tr) ∧
      (env.encode Scene.textScene 0 = env.encode Scene.textScene 1 →
        g = env.encode Scene.geomScene 2 ∧ t = env.encode Scene.textScene 0) := by
  by_cases heq : env.encode Scene.textScene 0 = env.encode Scene.textScene 1
  · refine ⟨env.encode Scene.geomScene 2, env.encode Scene.textScene 0,
      [CanvasEvent.render Scene.textScene, CanvasEvent.encodeEv Scene.textScene 0,
       CanvasEvent.encodeEv Scene.textScene 1,
       CanvasEvent.render Scene.geomScene, CanvasEvent.encodeEv Scene.geomScene 2], ?_, ?_, ?_, ?_, ?_, ?_, ?_⟩
    · unfold renderImages; simp [ht, heq]
    · unfold getCanvasFingerprint getUnstableCanvasFingerprint renderImages
      simp [hpath, hsup, ht, heq]
    · simp
    · simp
    · simp
    · intro hne; exact absurd heq hne
    · intro _; exact ⟨rfl, rfl⟩
  · refine ⟨ImageStatus.Unstable, ImageStatus.Unstable,
      [CanvasEvent.render Scene.textScene, CanvasEvent.encodeEv Scene.textScene 0,
       CanvasEvent.encodeEv Scene.textScene 1], ?_, ?_, ?_, ?_, ?_, ?_, ?_⟩
    · unfold renderImages; simp [ht, heq]
    · unfold getCanvasFingerprint getUnstableCanvasFingerprint renderImages
      simp [hpath, hsup, ht, heq]
    · simp
    · simp
    · simp
    · intro _; refine ⟨rfl, rfl, ?_⟩; simp
    · intro h; exact absurd h heq

/-- Witness for renderImages_unstable_policy: both the differing-encodings
    branch and the stable branch at concrete environments. -/
theorem renderImages_unstable_policy_witness :
    (∃ g t tr, renderImages unstableTextEnv = Except.ok (g, t, tr) ∧
      getCanvasFingerprint unstableTextEnv
        = Except.ok { winding := doesSupportWinding unstableTextEnv, geometry := g, text := t } ∧
      CanvasEvent.render Scene.textScene ∈ tr ∧
      CanvasEvent.encodeEv Scene.textScene 0 ∈ tr ∧
      CanvasEvent.encodeEv Scene.textScene 1 ∈ tr ∧
      (unstableTextEnv.encode Scene.textScene 0 ≠ unstableTextEnv.encode Scene.textScene 1 →
        g = ImageStatus.Unstable ∧ t = ImageStatus.Unstable ∧
        CanvasEvent.render Scene.geomScene ∉ tr) ∧
      (unstableTextEnv.encode Scene.textScene 0 = unstableTextEnv.encode Scene.textScene 1 →
        g = unstableTextEnv.encode Scene.geomScene 2 ∧ t = unstableTextEnv.encode Scene.textScene 0)) ∧
    (∃ g t tr, renderImages stableTextEnv = Except.ok (g, t, tr) ∧
      getCanvasFingerprint stableTextEnv
        = Except.ok { winding := doesSupportWinding stableTextEnv, geometry := g, text := t } ∧
      CanvasEvent.render Scene.textScene ∈ tr ∧
      CanvasEvent.encodeEv Scene.textScene 0 ∈ tr ∧
      CanvasEvent.encodeEv Scene.textScene 1 ∈ tr ∧
      (stableTextEnv.encode Scene.textScene 0 ≠ stableTextEnv.encode Scene.textScene 1 →
        g = ImageStatus.Unstable ∧ t = ImageStatus.Unstable ∧
        CanvasEvent.render Scene.geomScene ∉ tr) ∧
      (stableTextEnv.encode Scene.textScene 0 = stableTextEnv.encode Scene.textScene 1 →
        g = stableTextEnv.encode Scene.geomScene 2 ∧ t = stableTextEnv.encode Scene.textScene 0)) :=
  ⟨renderImages_unstable_policy unstableTextEnv rfl rfl rfl,
   renderImages_unstable_policy stableTextEnv rfl rfl rfl⟩

/-- Helper: a flatMap over List.range with chunks of constant length k has
    length n * k. -/
theorem length_flatMap_const {α : Type} (f : Nat → List α) (k : Nat)
    (hf : ∀ i, (f i).length = k) (n : Nat) :
    ((List.range n).flatMap f).length = n * k := by
  induction n with
  | zero => simp
  | succ m ih =>
    rw [List.range_succ, List.flatMap_append, List.length_append, ih]
    simp only [List.flatMap_cons, List.flatMap_nil, List.append_nil, hf]
    ring

/-- Helper: indexing into a flatMap over List.range with chunks of constant
    length k: position i * k + j with j < k falls in chunk i at offset j. -/
theorem getElem?_flatMap_range {α : Type} (f : Nat → List α) (k : Nat)
    (hf : ∀ i, (f i).length = k) :
    ∀ (n i j : Nat), i < n → j < k →
      ((List.range n).flatMap f)[i * k + j]? = (f i)[j]? := by
  intro n
  induction n with
  | zero => intro i j hi _; omega
  | succ m ih =>
    intro i j hi hj
    rw [List.range_succ, List.flatMap_append]
    rcases Nat.lt_or_ge i m with him | him
    · rw [List.getElem?_append_left]
      · exact ih i j him hj
      · rw [length_flatMap_const f k hf m]
        calc i * k + j < i * k + k := by omega
          _ = (i + 1) * k := by ring
          _ ≤ m * k := Nat.mul_le_mul_right k (by omega)
    · have hieq : i = m := by omega
      subst hieq
      rw [List.getElem?_append_right (by rw [length_flatMap_const f k hf i]; omega)]
      rw [length_flatMap_const f k hf i]
      have h2 : i * k + j - i * k = j := by omega
      rw [h2]
      simp only [List.flatMap_cons, List.flatMap_nil, List.append_nil]

/-- Helper: denoiseExtract with its lets and the DENOISE_SCALE constant
    reduced (3 / 2 = 1 in integer arithmetic, as Math.floor(3 / 2) in the
    source). -/
theorem denoiseExtract_eq (W H : Nat) (scaled : Nat → Nat) :
    denoiseExtract W H scaled = (List.range H).flatMap fun y =>
      (List.range W).flatMap fun x =>
        [scaled (((y * 3 + 1) * (W * 3) + (x * 3 + 1)) * 4),
         scaled (((y * 3 + 1) * (W * 3) + (x * 3 + 1)) * 4 + 1),
         scaled (((y * 3 + 1) * (W * 3) + (x * 3 + 1)) * 4 + 2),
         scaled (((y * 3 + 1) * (W * 3) + (x * 3 + 1)) * 4 + 3)] := rfl

/-- C5: in the 3x3 denoise procedure on a W x H source, the output byte at
    position (y * W + x) * 4 + c (pixel (x, y), channel c) is exactly the
    byte read from the scaled 3W x 3H readback at scaled coordinate
    (3x + 1, 3y + 1), the center pixel of that pixel's 3x3 block. -/
theorem denoise_center_pixel (W H : Nat) (scaled : Nat → Nat) (x y c : Nat)
    (hx : x < W) (hy : y < H) (hc : c < 4) :
    (denoiseExtract W H scaled)[(y * W + x) * 4 + c]?
      = some (scaled (((3 * y + 1) * (3 * W) + (3 * x + 1)) * 4 + c)) := by
  rw [denoiseExtract_eq]
  have hidx : (y * W + x) * 4 + c = y * (W * 4) + (x * 4 + c) := by ring
  rw [hidx]
  have houter := getElem?_flatMap_range
    (fun yy => (List.range W).flatMap fun xx =>
      [scaled (((yy * 3 + 1) * (W * 3) + (xx * 3 + 1)) * 4),
       scaled (((yy * 3 + 1) * (W * 3) + (xx * 3 + 1)) * 4 + 1),
       scaled (((yy * 3 + 1) * (W * 3) + (xx * 3 + 1)) * 4 + 2),
       scaled (((yy * 3 + 1) * (W * 3) + (xx * 3 + 1)) * 4 + 3)])
    (W * 4)
    (fun yy => length_flatMap_const
      (fun xx => [scaled (((yy * 3 + 1) * (W * 3) + (xx * 3 + 1)) * 4),
                  scaled (((yy * 3 + 1) * (W * 3) + (xx * 3 + 1)) * 4 + 1),
                  scaled (((yy * 3 + 1) * (W * 3) + (xx * 3 + 1)) * 4 + 2),
                  scaled (((yy * 3 + 1) * (W * 3) + (xx * 3 + 1)) * 4 + 3)])
      4 (fun _ => rfl) W)
    H y (x * 4 + c) hy (by omega)
  rw [houter]
  have hinner := getElem?_flatMap_range
    (fun xx => [scaled (((y * 3 + 1) * (W * 3) + (xx * 3 + 1)) * 4),
                scaled (((y * 3 + 1) * (W * 3) + (xx * 3 + 1)) * 4 + 1),
                scaled (((y * 3 + 1) * (W * 3) + (xx * 3 + 1)) * 4 + 2),
                scaled (((y * 3 + 1) * (W * 3) + (xx * 3 + 1)) * 4 + 3)])
    4 (fun _ => rfl) W x c hx hc
  rw [hinner]
  interval_cases c
  · exact congrArg (fun t => some (scaled t)) (by ring)
  · exact congrArg (fun t => some (scaled t)) (by ring)
  · exact congrArg (fun t => some (scaled t)) (by ring)
  · exact congrArg (fun t => some (scaled t)) (by ring)

/-- Witness for denoise_center_pixel at a concrete 2 x 2 image. -/
theorem denoise_center_pixel_witness :
    (denoiseExtract 2 2 id)[(1 * 2 + 1) * 4 + 3]?
      = some (id (((3 * 1 + 1) * (3 * 2) + (3 * 1 + 1)) * 4 + 3)) :=
  denoise_center_pixel 2 2 id 1 1 3 (by omega) (by omega) (by omega)

/-- Helper: once the lower-bound search has low = v (the true value), low is
    never moved again: every later midpoint is strictly above v, so the
    min-query fails and only high shrinks. -/
theorem minSearchLoop_low_fix (v : Nat) :
    ∀ (fuel high : Nat), v ≤ high →
      (minSearchLoop (fun m => decide (m ≤ v)) fuel v high).1 = v := by
  intro fuel
  induction fuel with
  | zero => intro high _; rfl
  | succ f ih =>
    intro high hvh
    by_cases hgap : high - v > 10
    · have hmid : ¬((v + high) / 2 ≤ v) := by omega
      simp only [minSearchLoop]
      rw [if_pos hgap, if_neg (by simpa using hmid)]
      exact ih _ (by omega)
    · simp only [minSearchLoop]
      rw [if_neg hgap]

/-- Helper: once the upper-bound search has high = v, high is never moved
    again: every later midpoint is strictly below v, so the max-query fails
    and only low grows. -/
theorem maxSearchLoop_high_fix (v : Nat) :
    ∀ (fuel low : Nat), low ≤ v →
      (maxSearchLoop (fun m => decide (v ≤ m)) fuel low v).2 = v := by
  intro fuel
  induction fuel with
  | zero => intro low _; rfl
  | succ f ih =>
    intro low hlv
    by_cases hgap : v - low > 10
    · have hmid : ¬(v ≤ (low + v) / 2) := by omega
      simp only [maxSearchLoop]
      rw [if_pos hgap, if_neg (by simpa using hmid)]
      exact ih _ (by omega)
    · simp only [maxSearchLoop]
      rw [if_neg hgap]

/-- Helper: the upper-bound search never leaves its initial bracket upward. -/
theorem maxSearchLoop_snd_le (mq : Nat → Bool) :
    ∀ (fuel low high : Nat), (maxSearchLoop mq fuel low high).2 ≤ high := by
  intro fuel
  induction fuel with
  | zero => intro low high; exact Nat.le_refl high
  | succ f ih =>
    intro low high
    by_cases hgap : high - low > 10
    · simp only [maxSearchLoop]
      rw [if_pos hgap]
      by_cases hm : mq ((low + high) / 2) = true
      · rw [if_pos hm]
        exact Nat.le_trans (ih low ((low + high) / 2)) (by omega)
      · rw [if_neg hm]
        exact ih ((low + high) / 2) high
    · simp only [maxSearchLoop]
      rw [if_neg hgap]

/-- Key lemma: run both searches of detectDimensionRange against a monotone
    oracle with true value v inside the bracket.  As long as a midpoint
    differs from v the two searches take the same branch and keep the same
    bracket; when a midpoint hits v exactly, the lower search pins low = v
    and the upper search pins high = v.  Hence the final pair (final low of
    the min search, final high of the max search) still brackets v and is at
    most 10 wide. -/
theorem searchLoop_pair (v : Nat) :
    ∀ (fuel low high : Nat), low ≤ v → v ≤ high → high - low ≤ fuel →
      (minSearchLoop (fun m => decide (m ≤ v)) fuel low high).1 ≤ v ∧
      v ≤ (maxSearchLoop (fun m => decide (v ≤ m)) fuel low high).2 ∧
      (maxSearchLoop (fun m => decide (v ≤ m)) fuel low high).2
        - (minSearchLoop (fun m => decide (m ≤ v)) fuel low high).1 ≤ 10 := by
  intro fuel
  induction fuel with
  | zero =>
    intro low high h1 h2 h3
    simp only [minSearchLoop, maxSearchLoop]
    exact ⟨h1, h2, by omega⟩
  | succ f ih =>
    intro low high h1 h2 h3
    by_cases hgap : high - low > 10
    · rcases Nat.lt_trichotomy ((low + high) / 2) v with hm | hm | hm
      · have hd1 : (low + high) / 2 ≤ v := by omega
        have hd2 : ¬(v ≤ (low + high) / 2) := by omega
        simp only [minSearchLoop, maxSearchLoop]
        rw [if_pos hgap, if_pos hgap, if_pos (by simpa using hd1), if_neg (by simpa using hd2)]
        exact ih ((low + high) / 2) high (by omega) h2 (by omega)
      · have hd1 : (low + high) / 2 ≤ v := by omega
        have hd2 : v ≤ (low + high) / 2 := by omega
        simp only [minSearchLoop, maxSearchLoop]
        rw [if_pos hgap, if_pos hgap, if_pos (by simpa using hd1), if_pos (by simpa using hd2)]
        rw [hm]
        rw [minSearchLoop_low_fix v f high h2, maxSearchLoop_high_fix v f low h1]
        exact ⟨Nat.le_refl v, Nat.le_refl v, by omega⟩
      · have hd1 : ¬((low + high) / 2 ≤ v) := by omega
        have hd2 : v ≤ (low + high) / 2 := by omega
        simp only [minSearchLoop, maxSearchLoop]
        rw [if_pos hgap, if_pos hgap, if_neg (by simpa using hd1), if_pos (by simpa using hd2)]
        exact ih low ((low + high) / 2) h1 (by omega) (by omega)
    · simp only [minSearchLoop, maxSearchLoop]
      rw [if_neg hgap, if_neg hgap]
      exact ⟨h1, h2, by omega⟩

/-- C2: against a monotone matchMedia oracle with true dimension value v in
    [0, 8192] (the min-query matches exactly at m <= v, the max-query at
    v <= m), detectDimensionRange returns a pair lo <= hi with 0 <= lo,
    hi <= 8192, hi - lo <= 10, and lo <= v <= hi. -/
theorem detectDimensionRange_brackets (env : ScreenEnv) (dimension : Dim) (v : Nat)
    (hv : v ≤ 8192)
    (hmin : ∀ m, env.matchMedia (MediaQuery.minDim dimension m) = decide (m ≤ v))
    (hmax : ∀ m, env.matchMedia (MediaQuery.maxDim dimension m) = decide (v ≤ m)) :
    0 ≤ (detectDimensionRange env dimension).1 ∧
    (detectDimensionRange env dimension).1 ≤ (detectDimensionRange env dimension).2 ∧
    (detectDimensionRange env dimension).2 ≤ 8192 ∧
    (detectDimensionRange env dimension).2 - (detectDimensionRange env dimension).1 ≤ 10 ∧
    (detectDimensionRange env dimension).1 ≤ v ∧ v ≤ (detectDimensionRange env dimension).2 := by
  have hf1 : (fun m => env.matchMedia (MediaQuery.minDim dimension m)) = fun m => decide (m ≤ v) :=
    funext hmin
  have hf2 : (fun m => env.matchMedia (MediaQuery.maxDim dimension m)) = fun m => decide (v ≤ m) :=
    funext hmax
  have hdd : detectDimensionRange env dimension
      = ((minSearchLoop (fun m => env.matchMedia (MediaQuery.minDim dimension m)) SEARCH_FUEL 0 8192).1,
         (maxSearchLoop (fun m => env.matchMedia (MediaQuery.maxDim dimension m)) SEARCH_FUEL 0 8192).2) :=
    rfl
  rw [hdd, hf1, hf2]
  obtain ⟨hp1, hp2, hp3⟩ := searchLoop_pair v SEARCH_FUEL 0 8192 (Nat.zero_le v) hv (by simp [SEARCH_FUEL])
  have hle := maxSearchLoop_snd_le (fun m => decide (v ≤ m)) SEARCH_FUEL 0 8192
  exact ⟨Nat.zero_le _, by omega, by omega, by omega, hp1, hp2⟩

/-- Witness for detectDimensionRange_brackets at a concrete oracle whose true
    width is 1280. -/
theorem detectDimensionRange_brackets_witness :
    (detectDimensionRange screen1280Env Dim.width).1 ≤ 1280 ∧
    1280 ≤ (detectDimensionRange screen1280Env Dim.width).2 ∧
    (detectDimensionRange screen1280Env Dim.width).2
      - (detectDimensionRange screen1280Env Dim.width).1 ≤ 10 ∧
    (detectDimensionRange screen1280Env Dim.width).2 ≤ 8192 := by
  have h := detectDimensionRange_brackets screen1280Env Dim.width 1280 (by omega)
    (fun m => rfl) (fun m => rfl)
  exact ⟨h.2.2.2.2.1, h.2.2.2.2.2, h.2.2.2.1, h.2.2.1⟩

/-- Helper: an all-digit group parses to a number under jsNumber. -/
theorem jsNumber_of_digits (p : JStr) (hp : p.all isDigitChar = true) :
    ∃ n, jsNumber p = some n := by
  unfold jsNumber
  by_cases he : p = []
  · simp [he]
  · simp [he, hp]

/-- Helper: an IPv6-shaped capture contains a colon. -/
theorem ipv6Shape_contains_colon (ip : JStr) (h : ipv6ShapeB ip = true) :
    ip.contains (':') = true := by
  unfold ipv6ShapeB at h
  rw [Bool.and_eq_true] at h
  exact h.2

/-- Helper: an IPv4-shaped string that passes isPrivateIPv4 splits into four
    parsed numeric groups whose leading groups satisfy the private-range
    tests of the source. -/
theorem private_shape_structure (ip : JStr)
    (hs : ipv4ShapeB ip = true) (hp : isPrivateIPv4 ip = true) :
    ∃ a b c d : Nat,
      (splitOnChar ('.') ip).map jsNumber = [some a, some b, some c, some d] ∧
      (a = 10 ∨ (a = 172 ∧ 16 ≤ b ∧ b ≤ 31) ∨ (a = 192 ∧ b = 168) ∨ (a = 169 ∧ b = 254)) := by
  unfold ipv4ShapeB at hs
  rw [Bool.and_eq_true, Bool.and_eq_true] at hs
  obtain ⟨⟨hlen, hall⟩, _⟩ := hs
  rw [decide_eq_true_eq] at hlen
  unfold isPrivateIPv4 at hp
  rcases hps : splitOnChar ('.') ip with _ | ⟨p1, tl1⟩
  · rw [hps] at hlen; simp at hlen
  rcases tl1 with _ | ⟨p2, tl2⟩
  · rw [hps] at hlen; simp at hlen
  rcases tl2 with _ | ⟨p3, tl3⟩
  · rw [hps] at hlen; simp at hlen
  rcases tl3 with _ | ⟨p4, tl4⟩
  · rw [hps] at hlen; simp at hlen
  have htl4 : tl4 = [] := by
    rw [hps] at hlen
    simp only [List.length_cons] at hlen
    exact List.length_eq_zero.mp (by omega)
  subst htl4
  rw [hps] at hall hp
  simp only [List.all_cons, List.all_nil, Bool.and_eq_true, Bool.and_true] at hall
  obtain ⟨h1, h2, h3, h4⟩ := hall
  obtain ⟨n1, hn1⟩ := jsNumber_of_digits p1 h1.2
  obtain ⟨n2, hn2⟩ := jsNumber_of_digits p2 h2.2
  obtain ⟨n3, hn3⟩ := jsNumber_of_digits p3 h3.2
  obtain ⟨n4, hn4⟩ := jsNumber_of_digits p4 h4.2
  refine ⟨n1, n2, n3, n4, ?_, ?_⟩
  · simp [hn1, hn2, hn3, hn4]
  · simp only [List.map_cons, List.map_nil, hn1, hn2, hn3, hn4] at hp
    simp only [beq_iff_eq, Option.some.injEq, Bool.or_eq_true, Bool.and_eq_true,
      decide_eq_true_eq] at hp
    tauto

/-- Helper: the candidate-event handler preserves the closure invariant, for
    any extraction oracle sound for the source regex. -/
theorem candidateStep_inv (extract : JStr → Option JStr) (hx : regexSound extract)
    (st : RTCState) (s : JStr) (h : RTCInv st) : RTCInv (candidateStep extract st s) := by
  obtain ⟨hnd, hseen, h4, h6⟩ := h
  unfold candidateStep
  cases hcs : extract s with
  | none => exact ⟨hnd, hseen, h4, h6⟩
  | some ip =>
    dsimp only
    by_cases hmem : st.seen.contains ip = true
    · rw [if_pos hmem]
      exact ⟨hnd, hseen, h4, h6⟩
    · rw [if_neg hmem]
      have hnotin : ip ∉ st.seen := fun hm => hmem (List.elem_eq_true_of_mem hm)
      have hfresh : ip ∉ st.ipv4 ++ st.ipv6 := fun hc => hnotin (hseen ip hc)
      have hkeep : RTCInv { st with seen := ip :: st.seen } :=
        ⟨hnd, fun ip' h' => List.mem_cons_of_mem _ (hseen ip' h'), h4, h6⟩
      by_cases hlocal : List.isSuffixOf dotLocal ip = true
      · rw [if_pos hlocal]
        exact hkeep
      · rw [if_neg hlocal]
        by_cases hcolon : ip.contains (':') = true
        · rw [if_pos hcolon]
          by_cases hll : isLinkLocalIPv6 ip = true
          · rw [if_pos hll]
            exact hkeep
          · rw [if_neg hll]
            refine ⟨?_, ?_, h4, ?_⟩
            · show (st.ipv4 ++ (st.ipv6 ++ [ip])).Nodup
              rw [← List.append_assoc]
              exact (List.perm_append_singleton ip (st.ipv4 ++ st.ipv6)).symm.nodup
                (List.nodup_cons.mpr ⟨hfresh, hnd⟩)
            · intro ip' h'
              rw [show ({ st with seen := ip :: st.seen, ipv6 := st.ipv6 ++ [ip] } : RTCState).ipv4
                    = st.ipv4 from rfl, ← List.append_assoc] at h'
              rcases List.mem_append.mp h' with h'' | h''
              · exact List.mem_cons_of_mem _ (hseen ip' h'')
              · rw [List.mem_singleton] at h''
                subst h''
                exact List.mem_cons_self _ _
            · intro ip' h'
              rcases List.mem_append.mp h' with h'' | h''
              · exact h6 ip' h''
              · rw [List.mem_singleton] at h''
                subst h''
                cases hX : isLinkLocalIPv6 ip' with
                | false => rfl
                | true => exact absurd hX hll
        · rw [if_neg hcolon]
          by_cases hpriv : isPrivateIPv4 ip = true
          · rw [if_pos hpriv]
            have hshape : ipv4ShapeB ip = true := by
              rcases hx s ip hcs with hsh | hsh
              · exact hsh
              · exact absurd (ipv6Shape_contains_colon ip hsh) hcolon
            refine ⟨?_, ?_, ?_, h6⟩
            · show ((st.ipv4 ++ [ip]) ++ st.ipv6).Nodup
              rw [List.append_assoc]
              exact List.perm_middle.symm.nodup (List.nodup_cons.mpr ⟨hfresh, hnd⟩)
            · intro ip' h'
              rw [show ({ st with seen := ip :: st.seen, ipv4 := st.ipv4 ++ [ip] } : RTCState).ipv6
                    = st.ipv6 from rfl] at h'
              rw [List.append_assoc] at h'
              rcases List.mem_append.mp h' with h'' | h''
              · exact List.mem_cons_of_mem _ (hseen ip' (List.mem_append.mpr (Or.inl h'')))
              · rcases List.mem_append.mp h'' with h3 | h3
                · rw [List.mem_singleton] at h3
                  subst h3
                  exact List.mem_cons_self _ _
                · exact List.mem_cons_of_mem _ (hseen ip' (List.mem_append.mpr (Or.inr h3)))
            · intro ip' h'
              rcases List.mem_append.mp h' with h'' | h''
              · exact h4 ip' h''
              · rw [List.mem_singleton] at h''
                subst h''
                exact ⟨hshape, hpriv⟩
          · rw [if_neg hpriv]
            exact hkeep

/-- Helper: the event loop preserves and delivers the closure invariant. -/
theorem processEvents_inv (extract : JStr → Option JStr) (hx : regexSound extract) :
    ∀ (events : List RTCEvent) (st : RTCState), RTCInv st →
      ((processEvents extract st events).localIPv4
          ++ (processEvents extract st events).localIPv6).Nodup ∧
      (∀ ip ∈ (processEvents extract st events).localIPv4,
        ipv4ShapeB ip = true ∧ isPrivateIPv4 ip = true) ∧
      (∀ ip ∈ (processEvents extract st events).localIPv6, isLinkLocalIPv6 ip = false) := by
  intro events
  induction events with
  | nil =>
    intro st h
    exact ⟨h.1, h.2.2.1, h.2.2.2⟩
  | cons e rest ih =>
    intro st h
    cases e with
    | candidate s => exact ih (candidateStep extract st s) (candidateStep_inv extract hx st s h)
    | endOfCandidates => exact ⟨h.1, h.2.2.1, h.2.2.2⟩
    | gatheringComplete => exact ⟨h.1, h.2.2.1, h.2.2.2⟩
    | timeout => exact ⟨h.1, h.2.2.1, h.2.2.2⟩
    | offerRejected => exact ⟨h.1, h.2.2.1, h.2.2.2⟩

/-- Helper: package the loop invariant into the claim-side conclusion. -/
theorem webrtc_conclusion_of_inv (r : WebRTCIPs)
    (h1 : (r.localIPv4 ++ r.localIPv6).Nodup)
    (h2 : ∀ ip ∈ r.localIPv4, ipv4ShapeB ip = true ∧ isPrivateIPv4 ip = true)
    (h3 : ∀ ip ∈ r.localIPv6, isLinkLocalIPv6 ip = false) :
    (r.localIPv4 ++ r.localIPv6).Nodup ∧
    (∀ ip ∈ r.localIPv4,
      ∃ a b c d : Nat,
        (splitOnChar ('.') ip).map jsNumber = [some a, some b, some c, some d] ∧
        (a = 10 ∨ (a = 172 ∧ 16 ≤ b ∧ b ≤ 31) ∨ (a = 192 ∧ b = 168) ∨ (a = 169 ∧ b = 254))) ∧
    (∀ ip ∈ r.localIPv6, List.isPrefixOf fe80Colon (ip.map toLowerChar) = false) :=
  ⟨h1,
   fun ip hip => private_shape_structure ip (h2 ip hip).1 (h2 ip hip).2,
   fun ip hip => h3 ip hip⟩

/-- C7 counterexample: a regex-shaped candidate address 10.777.0.1 (third
    group 777 above 255) passes the source filters and is resolved inside
    localIPv4, although it is not a dotted-quad address lying in any of the
    private ranges; the claim as stated is therefore false. -/
theorem getWebRTCIPs_invalid_octet_cex :
    getWebRTCIPs c7Env = { localIPv4 := [c7IP], localIPv6 := [], supported := true } ∧
    validDottedQuadInPrivateRanges c7IP = false ∧
    ipv4ShapeB c7IP = true ∧
    isPrivateIPv4 c7IP = true := by
  exact ⟨by decide, by decide, by decide, by decide⟩

/-- Helper: the counterexample extraction oracle only returns regex-shaped
    captures (10.777.0.1 matches the IPv4 alternative of the source regex). -/
theorem c7Extract_regexSound : regexSound c7Extract := by
  intro s ip h
  unfold c7Extract at h
  by_cases hs : s = c7Candidate
  · rw [if_pos hs] at h
    have hip : c7IP = ip := Option.some.inj h
    subst hip
    left
    decide
  · rw [if_neg hs] at h
    exact absurd h (by simp)

/-- Helper: the witness extraction oracle only returns regex-shaped captures. -/
theorem goodExtract_regexSound : regexSound goodExtract := by
  intro s ip h
  unfold goodExtract at h
  by_cases hs : s = goodCandidate
  · rw [if_pos hs] at h
    have hip : goodIP = ip := Option.some.inj h
    subst hip
    left
    decide
  · rw [if_neg hs] at h
    exact absurd h (by simp)

/-- C7 amended: in every resolved result, localIPv4 and localIPv6 hold no
    duplicate within or across the two lists; every element of localIPv4 is a
    four-group dotted decimal string whose leading groups pass the private
    range tests (first group 10, or 172 with second group in 16..31, or
    192.168, or 169.254 -- groups not inspected by the tests may exceed 255);
    and no element of localIPv6 begins with fe80: case-insensitively. -/
theorem getWebRTCIPs_result_invariants (env : RTCEnv) (hx : regexSound env.extract) :
    ((getWebRTCIPs env).localIPv4 ++ (getWebRTCIPs env).localIPv6).Nodup ∧
    (∀ ip ∈ (getWebRTCIPs env).localIPv4,
      ∃ a b c d : Nat,
        (splitOnChar ('.') ip).map jsNumber = [some a, some b, some c, some d] ∧
        (a = 10 ∨ (a = 172 ∧ 16 ≤ b ∧ b ≤ 31) ∨ (a = 192 ∧ b = 168) ∨ (a = 169 ∧ b = 254))) ∧
    (∀ ip ∈ (getWebRTCIPs env).localIPv6,
      List.isPrefixOf fe80Colon (ip.map toLowerChar) = false) := by
  have hinit : RTCInv { seen := [], ipv4 := [], ipv6 := [] } := by
    refine ⟨List.nodup_nil, ?_, ?_, ?_⟩ <;> intro ip h <;> simp at h
  have hmain := processEvents_inv env.extract hx (env.events ++ [RTCEvent.timeout])
    { seen := [], ipv4 := [], ipv6 := [] } hinit
  unfold getWebRTCIPs
  dsimp only
  cases hpc : (env.hasRTCPeerConnection || env.hasWebkitRTCPeerConnection
      || env.hasMozRTCPeerConnection) with
  | true =>
    rw [if_neg (by simp)]
    by_cases hth : env.setupThrows = true
    · rw [if_pos hth]
      exact webrtc_conclusion_of_inv { localIPv4 := [], localIPv6 := [], supported := true }
        (by simp) (by intro ip h; simp at h) (by intro ip h; simp at h)
    · rw [if_neg hth]
      exact webrtc_conclusion_of_inv _ hmain.1 hmain.2.1 hmain.2.2
  | false =>
    rw [if_pos (by simp)]
    exact webrtc_conclusion_of_inv { localIPv4 := [], localIPv6 := [], supported := false }
      (by simp) (by intro ip h; simp at h) (by intro ip h; simp at h)

/-- Witness for getWebRTCIPs_result_invariants at a concrete environment
    delivering the private address 192.168.1.7. -/
theorem getWebRTCIPs_result_invariants_witness :
    ((getWebRTCIPs rtcGoodEnv).localIPv4 ++ (getWebRTCIPs rtcGoodEnv).localIPv6).Nodup ∧
    (∀ ip ∈ (getWebRTCIPs rtcGoodEnv).localIPv4,
      ∃ a b c d : Nat,
        (splitOnChar ('.') ip).map jsNumber = [some a, some b, some c, some d] ∧
        (a = 10 ∨ (a = 172 ∧ 16 ≤ b ∧ b ≤ 31) ∨ (a = 192 ∧ b = 168) ∨ (a = 169 ∧ b = 254))) ∧
    (∀ ip ∈ (getWebRTCIPs rtcGoodEnv).localIPv6,
      List.isPrefixOf fe80Colon (ip.map toLowerChar) = false) :=
  getWebRTCIPs_result_invariants rtcGoodEnv goodExtract_regexSound
